import Mathlib

/-
  Shallow embedding of src/cineluck/state/machine.py: the camera operation
  state machine (class StateMachine) and the safe-stop sequencer
  (class SafeStopManager, PyQt6 variant, lines 276-362).

  Python callables registered as hooks are modelled by their observable
  outcome: `some true` means a handler is registered and returns normally,
  `some false` means a handler is registered and raises, `none` means no
  handler is registered.  Background timers (threading.Timer) are modelled
  as pending-timer state inside the machine record together with explicit
  fire functions.  Emitted signals and invoked collaborator calls are
  collected in an event list in emission order.
-/

namespace CineLuck

/-- CameraState, machine.py lines 66-72. -/
inductive CameraState where
  | IDLE
  | PREVIEW
  | RECORDING
  | STOPPING
  | ERROR
deriving DecidableEq, Repr

open CameraState

/-- StateMachine.VALID_TRANSITIONS, machine.py lines 82-88. -/
def VALID_TRANSITIONS : CameraState → List CameraState
  | IDLE => [PREVIEW, ERROR]
  | PREVIEW => [RECORDING, IDLE, ERROR]
  | RECORDING => [STOPPING, ERROR]
  | STOPPING => [PREVIEW, IDLE, ERROR]
  | ERROR => [IDLE, PREVIEW]

/-- Observable events: emitted signals (state_changed, error_occurred,
stop_progress, stop_completed) and invoked hook/collaborator calls. -/
inductive Event where
  | state_changed (new_state old_state : CameraState)
  | error_occurred (msg : String)
  | stop_progress (msg : String)
  | stop_completed (success : Bool)
  | transition_hook_run (a b : CameraState)
  | state_hook_run (s : CameraState)
  | drain_called
  | finalize_called
  | stop_safe_called
deriving DecidableEq, Repr

/-- StateMachine._max_retries, machine.py line 98. -/
def max_retries : Nat := 3

/-- The mutable state of one StateMachine instance (machine.py lines 90-102).
`watchdog_timer` records whether the _watchdog_timer field is non-None;
`watchdog_pending` records a live (started, unfired, uncancelled) watchdog
timer together with the mode that was current when it was armed;
`recovery_timers` counts started, unfired 2-second recovery timers. -/
structure Machine where
  current_state : CameraState
  retry_count : Nat
  watchdog_timer : Bool
  watchdog_pending : Option CameraState
  recovery_timers : Nat
  transition_handlers : CameraState → CameraState → Option Bool
  state_handlers : CameraState → Option Bool

/-- A freshly constructed StateMachine (machine.py __init__, lines 90-104). -/
def initMachine : Machine where
  current_state := IDLE
  retry_count := 0
  watchdog_timer := false
  watchdog_pending := none
  recovery_timers := 0
  transition_handlers := fun _ _ => none
  state_handlers := fun _ => none

/-- StateMachine.can_transition_to, machine.py lines 116-119. -/
def can_transition_to (m : Machine) (new_state : CameraState) : Bool :=
  (VALID_TRANSITIONS m.current_state).contains new_state

/-- StateMachine._stop_watchdog, machine.py lines 231-235. -/
def stop_watchdog (m : Machine) : Machine :=
  { m with watchdog_timer := false, watchdog_pending := none }

/-- StateMachine._start_watchdog, machine.py lines 218-229: cancel any
pending timer, then arm a new one only in PREVIEW or RECORDING. -/
def start_watchdog (m : Machine) : Machine :=
  let m1 := stop_watchdog m
  if m1.current_state ∈ [PREVIEW, RECORDING] then
    { m1 with watchdog_timer := true, watchdog_pending := some m1.current_state }
  else
    m1

/-- StateMachine._handle_error, machine.py lines 192-208: emit the error
signal, increment the retry count, force ERROR if not already there (note
line 203 reads the old-state argument from the already-overwritten field,
so the notification carries ERROR twice), and start a recovery timer while
the retry count has not exceeded _max_retries. -/
def handle_error (m : Machine) (error_message : String) : Machine × List Event :=
  let evs := [Event.error_occurred error_message]
  let m1 := { m with retry_count := m.retry_count + 1 }
  let (m2, evs2) :=
    if m1.current_state ≠ ERROR then
      let m' := { m1 with current_state := ERROR }
      (m', [Event.state_changed ERROR m'.current_state])
    else
      (m1, ([] : List Event))
  let m3 :=
    if m2.retry_count ≤ max_retries then
      { m2 with recovery_timers := m2.recovery_timers + 1 }
    else
      m2
  (m3, evs ++ evs2)

/-- StateMachine.transition_to, machine.py lines 121-176.  Returns the
updated machine, the events emitted during the call, and the boolean
result.  A transition handler that raises is caught at line 173 and routed
through _handle_error; a state handler that raises is caught at line 166
and routed through _handle_error; both make the call return False. -/
def transition_to (m : Machine) (new_state : CameraState) (force : Bool) :
    Machine × List Event × Bool :=
  let old_state := m.current_state
  if !force && !(can_transition_to m new_state) then
    (m, [], false)
  else
    let hook := m.transition_handlers old_state new_state
    let hookEvs := if hook.isSome then [Event.transition_hook_run old_state new_state] else []
    if hook = some false then
      let (m', evs) := handle_error m "Transition error"
      (m', hookEvs ++ evs, false)
    else
      let m1 := { m with current_state := new_state }
      let m2 := if new_state ≠ ERROR then { m1 with retry_count := 0 } else m1
      let evs1 := hookEvs ++ [Event.state_changed new_state old_state]
      let m3 := start_watchdog m2
      let shook := m3.state_handlers new_state
      let shookEvs := if shook.isSome then [Event.state_hook_run new_state] else []
      if shook = some false then
        let (m4, evs2) := handle_error m3 "State handler error"
        (m4, evs1 ++ shookEvs ++ evs2, false)
      else
        (m3, evs1 ++ shookEvs, true)

/-- StateMachine._attempt_recovery, machine.py lines 210-216: a forced
transition back to IDLE (transition_to never lets an exception escape). -/
def attempt_recovery (m : Machine) : Machine × List Event :=
  let r := transition_to m IDLE true
  (r.1, r.2.1)

/-- One pending 2-second recovery timer fires and runs _attempt_recovery. -/
def fire_recovery_timer (m : Machine) : Machine × List Event :=
  attempt_recovery { m with recovery_timers := m.recovery_timers - 1 }

/-- StateMachine._watchdog_timeout_handler, machine.py lines 237-244. -/
def watchdog_timeout_handler (m : Machine) : Machine × List Event :=
  if m.current_state = PREVIEW then
    handle_error m "Preview stalled - watchdog timeout"
  else if m.current_state = RECORDING then
    handle_error m "Recording stalled - watchdog timeout"
  else
    (m, [])

/-- The armed single-shot watchdog deadline elapses: the timer is no longer
pending once the handler runs. -/
def fire_watchdog (m : Machine) : Machine × List Event :=
  watchdog_timeout_handler { m with watchdog_pending := none }

/-- StateMachine.reset_watchdog, machine.py lines 246-249. -/
def reset_watchdog (m : Machine) : Machine :=
  if m.watchdog_timer then start_watchdog m else m

/-- StateMachine.force_idle, machine.py lines 251-259. -/
def force_idle (m : Machine) : Machine × List Event :=
  let m1 := stop_watchdog m
  let old_state := m1.current_state
  ({ m1 with current_state := IDLE, retry_count := 0 },
   [Event.state_changed IDLE old_state])

/-- StateMachine.register_state_handler, machine.py lines 178-181; the
registered callable is represented by its outcome `ok`. -/
def register_state_handler (m : Machine) (state : CameraState) (ok : Bool) : Machine :=
  { m with state_handlers := fun s => if s = state then some ok else m.state_handlers s }

/-- StateMachine.register_transition_handler, machine.py lines 183-190. -/
def register_transition_handler (m : Machine) (from_state to_state : CameraState)
    (ok : Bool) : Machine :=
  { m with transition_handlers := fun a b =>
      if a = from_state ∧ b = to_state then some ok else m.transition_handlers a b }

/-- The encoder collaborator, as observed by SafeStopManager: each call
either returns normally (`none`) or raises the recorded exception text. -/
structure EncoderManager where
  drain_exc : Option String
  finalize_exc : Option String

/-- The capture collaborator: stop_recording_safe either returns normally
(`none`) or raises the recorded exception text. -/
structure CameraManager where
  stop_exc : Option String

/-- SafeStopManager instance state, machine.py lines 285-289. -/
structure SafeStopManager where
  state_machine : Machine
  stop_in_progress : Bool

/-- SafeStopManager.is_stopping, machine.py lines 291-293. -/
def is_stopping (mgr : SafeStopManager) : Bool :=
  mgr.stop_in_progress

/-- The try-block of SafeStopManager._safe_stop_worker, machine.py lines
320-354.  Returns the events emitted before control left the block and
either the raised exception text (Except.error) or the updated state
machine paired with the boolean result of the final transition
(Except.ok).  The two time.sleep calls (lines 329, 341) have no observable
effect and are not modelled. -/
def safe_stop_body (sm : Machine) (camera_manager : Option CameraManager)
    (encoder_manager : Option EncoderManager) :
    List Event × Except String (Machine × Bool) :=
  let ev1 := [Event.stop_progress "Stopping recording...",
              Event.stop_progress "Draining encoder..."]
  let (ev2, exc2) :=
    match encoder_manager with
    | some e => ([Event.drain_called], e.drain_exc)
    | none => ([], none)
  match exc2 with
  | some exc => (ev1 ++ ev2, Except.error exc)
  | none =>
    let ev3 := [Event.stop_progress "Finalizing file..."]
    let (ev4, exc4) :=
      match encoder_manager with
      | some e => ([Event.finalize_called], e.finalize_exc)
      | none => ([], none)
    match exc4 with
    | some exc => (ev1 ++ ev2 ++ ev3 ++ ev4, Except.error exc)
    | none =>
      let ev5 := [Event.stop_progress "Finalizing camera..."]
      let (ev6, exc6) :=
        match camera_manager with
        | some c => ([Event.stop_safe_called], c.stop_exc)
        | none => ([], none)
      match exc6 with
      | some exc => (ev1 ++ ev2 ++ ev3 ++ ev4 ++ ev5 ++ ev6, Except.error exc)
      | none =>
        let ev7 := [Event.stop_progress "Returning to preview..."]
        let tr := transition_to sm PREVIEW false
        let success := tr.2.2
        let ev8 :=
          if success then [Event.stop_progress "Ready"]
          else [Event.stop_progress "Stop completed with errors"]
        (ev1 ++ ev2 ++ ev3 ++ ev4 ++ ev5 ++ ev6 ++ ev7 ++ tr.2.1 ++ ev8 ++
           [Event.stop_completed success],
         Except.ok (tr.1, success))

/-- SafeStopManager._safe_stop_worker, machine.py lines 318-362: the try
block, the except branch (lines 356-359, emitting a failure progress
message and stop_completed False) and the finally branch (lines 361-362,
unconditionally clearing _stop_in_progress). -/
def safe_stop_worker (mgr : SafeStopManager) (camera_manager : Option CameraManager)
    (encoder_manager : Option EncoderManager) : SafeStopManager × List Event :=
  match safe_stop_body mgr.state_machine camera_manager encoder_manager with
  | (evs, Except.ok (sm2, _)) =>
      ({ state_machine := sm2, stop_in_progress := false }, evs)
  | (evs, Except.error exc) =>
      ({ state_machine := mgr.state_machine, stop_in_progress := false },
       evs ++ [Event.stop_progress ("Stop failed: " ++ exc),
               Event.stop_completed false])

/-- SafeStopManager.safe_stop_recording, machine.py lines 295-316: reject
the call when a stop is already in progress (no worker thread started),
otherwise set the in-progress flag and run the worker.  The last component
records whether a worker run was started. -/
def safe_stop_recording (mgr : SafeStopManager) (camera_manager : Option CameraManager)
    (encoder_manager : Option EncoderManager) : SafeStopManager × List Event × Bool :=
  if mgr.stop_in_progress then
    (mgr, [], false)
  else
    let mgr1 := { mgr with stop_in_progress := true }
    let r := safe_stop_worker mgr1 camera_manager encoder_manager
    (r.1, r.2, true)

/-- The stop_progress messages contained in an event list, in order. -/
def progress_messages (evs : List Event) : List String :=
  evs.filterMap fun e =>
    match e with
    | Event.stop_progress s => some s
    | _ => none

/-- The state_changed notifications contained in an event list, in order. -/
def state_changed_events (evs : List Event) : List Event :=
  evs.filter fun e =>
    match e with
    | Event.state_changed _ _ => true
    | _ => false

/-- The error_occurred messages contained in an event list, in order. -/
def error_messages (evs : List Event) : List String :=
  evs.filterMap fun e =>
    match e with
    | Event.error_occurred s => some s
    | _ => none

/-- The stop_completed flags contained in an event list, in order. -/
def completed_flags (evs : List Event) : List Bool :=
  evs.filterMap fun e =>
    match e with
    | Event.stop_completed b => some b
    | _ => none

/-- Whether the last event of a list is a stop_completed notification. -/
def last_is_completed (evs : List Event) : Bool :=
  match evs.getLast? with
  | some (Event.stop_completed _) => true
  | _ => false

/-- Whether the first character list occurs at the head of the second. -/
def starts_with : List Char → List Char → Bool
  | [], _ => true
  | _ :: _, [] => false
  | a :: as, b :: bs => a = b && starts_with as bs

/-- Whether the first character list occurs contiguously anywhere in the
second. -/
def occurs_within (pat : List Char) : List Char → Bool
  | [] => starts_with pat []
  | b :: bs => starts_with pat (b :: bs) || occurs_within pat bs

/-- Whether a message contains the word used by the watchdog timeout
diagnostics, checked structurally on the underlying character list. -/
def mentions_stalled (s : String) : Bool :=
  occurs_within "stalled".data s.data

/-- A machine with nontrivial retry, watchdog and handler state, currently
in PREVIEW, used to exhibit frame conditions on rejected transitions. -/
def frame_example : Machine where
  current_state := PREVIEW
  retry_count := 2
  watchdog_timer := true
  watchdog_pending := some PREVIEW
  recovery_timers := 1
  transition_handlers := fun a b => if a = PREVIEW ∧ b = STOPPING then some true else none
  state_handlers := fun s => if s = STOPPING then some true else none

/-- A machine in PREVIEW whose recovery transition (ERROR, IDLE) has a
registered transition handler that raises, so every auto-recovery attempt
fails and re-enters the error path. -/
def failing_recovery_example : Machine :=
  register_transition_handler { initMachine with current_state := PREVIEW } ERROR IDLE false

/-- A machine sitting in PREVIEW with the watchdog armed for PREVIEW, as
left behind by a successful transition into PREVIEW. -/
def preview_armed_example : Machine :=
  { initMachine with
      current_state := PREVIEW
      watchdog_timer := true
      watchdog_pending := some PREVIEW }

/-- A machine in STOPPING, the mode from which the sequencer transition to
PREVIEW is allowed by the table. -/
def stopping_machine_example : Machine :=
  { initMachine with current_state := STOPPING }

/-- A sequencer bound to a machine in STOPPING, with no stop in progress. -/
def stopping_mgr_example : SafeStopManager :=
  { state_machine := stopping_machine_example, stop_in_progress := false }

/-- The method _handle_error always leaves the machine in ERROR. -/
theorem handle_error_state (m : Machine) (s : String) :
    (handle_error m s).1.current_state = ERROR := by
  unfold handle_error
  by_cases h : m.current_state = ERROR <;> simp [h] <;> split <;> simp [h]

/-- The method _handle_error increments the retry count and never resets it. -/
theorem handle_error_retry (m : Machine) (s : String) :
    (handle_error m s).1.retry_count = m.retry_count + 1 := by
  unfold handle_error
  by_cases h : m.current_state = ERROR <;> simp [h] <;> split <;> simp

/-- The method _handle_error starts one recovery timer exactly when the incremented
retry count is still within _max_retries. -/
theorem handle_error_timers (m : Machine) (s : String) :
    (handle_error m s).1.recovery_timers =
      if m.retry_count + 1 ≤ max_retries then m.recovery_timers + 1
      else m.recovery_timers := by
  unfold handle_error
  by_cases h : m.current_state = ERROR <;> simp [h] <;> split <;> rfl

/-- The method _handle_error does not touch the watchdog timer. -/
theorem handle_error_watchdog (m : Machine) (s : String) :
    (handle_error m s).1.watchdog_pending = m.watchdog_pending ∧
      (handle_error m s).1.watchdog_timer = m.watchdog_timer := by
  unfold handle_error
  by_cases h : m.current_state = ERROR <;> simp [h] <;> constructor <;> split <;> simp

/-- The method _handle_error does not touch the registered handlers. -/
theorem handle_error_handlers (m : Machine) (s : String) :
    (handle_error m s).1.transition_handlers = m.transition_handlers ∧
      (handle_error m s).1.state_handlers = m.state_handlers := by
  unfold handle_error
  by_cases h : m.current_state = ERROR <;> simp [h] <;> constructor <;> split <;> simp

/-- The events emitted by _handle_error: the error signal first, then a
state-change signal only when the machine was not already in ERROR. -/
theorem handle_error_events (m : Machine) (s : String) :
    (handle_error m s).2 =
      Event.error_occurred s ::
        (if m.current_state ≠ ERROR then [Event.state_changed ERROR ERROR] else []) := by
  unfold handle_error
  by_cases h : m.current_state = ERROR <;> simp [h]

/-- A non-forced transition whose target is not allowed by the transition
table returns False and changes nothing at all. -/
theorem transition_to_rejected (m : Machine) (new_state : CameraState)
    (h : can_transition_to m new_state = false) :
    transition_to m new_state false = (m, [], false) := by
  unfold transition_to
  simp [h]

/-- The method _start_watchdog leaves the current mode unchanged. -/
theorem start_watchdog_cs (m : Machine) :
    (start_watchdog m).current_state = m.current_state := by
  by_cases h : m.current_state ∈ [PREVIEW, RECORDING] <;> simp [start_watchdog, stop_watchdog, h]

/-- The method _start_watchdog leaves the retry count unchanged. -/
theorem start_watchdog_rc (m : Machine) :
    (start_watchdog m).retry_count = m.retry_count := by
  by_cases h : m.current_state ∈ [PREVIEW, RECORDING] <;> simp [start_watchdog, stop_watchdog, h]

/-- The method _start_watchdog leaves the pending recovery timers unchanged. -/
theorem start_watchdog_rt (m : Machine) :
    (start_watchdog m).recovery_timers = m.recovery_timers := by
  by_cases h : m.current_state ∈ [PREVIEW, RECORDING] <;> simp [start_watchdog, stop_watchdog, h]

/-- The method _start_watchdog leaves the transition handler table unchanged. -/
theorem start_watchdog_th (m : Machine) :
    (start_watchdog m).transition_handlers = m.transition_handlers := by
  by_cases h : m.current_state ∈ [PREVIEW, RECORDING] <;> simp [start_watchdog, stop_watchdog, h]

/-- The method _start_watchdog leaves the state handler table unchanged. -/
theorem start_watchdog_sh (m : Machine) :
    (start_watchdog m).state_handlers = m.state_handlers := by
  by_cases h : m.current_state ∈ [PREVIEW, RECORDING] <;> simp [start_watchdog, stop_watchdog, h]

/-- After _start_watchdog a timer is pending exactly when the current mode
is PREVIEW or RECORDING, and it is tagged with that mode. -/
theorem start_watchdog_wp (m : Machine) :
    (start_watchdog m).watchdog_pending =
      (if m.current_state ∈ [PREVIEW, RECORDING] then some m.current_state else none) := by
  by_cases h : m.current_state ∈ [PREVIEW, RECORDING] <;> simp [start_watchdog, stop_watchdog, h]

/-- After _start_watchdog the timer field is set exactly when the current
mode is PREVIEW or RECORDING. -/
theorem start_watchdog_wt (m : Machine) :
    (start_watchdog m).watchdog_timer =
      (if m.current_state ∈ [PREVIEW, RECORDING] then true else false) := by
  by_cases h : m.current_state ∈ [PREVIEW, RECORDING] <;> simp [start_watchdog, stop_watchdog, h]

/-- The method _handle_error emits exactly one error notification, carrying the given
message. -/
theorem error_messages_handle_error (m : Machine) (s : String) :
    error_messages (handle_error m s).2 = [s] := by
  rw [handle_error_events]
  by_cases h : m.current_state = ERROR <;> simp [h, error_messages]

/-- A transition whose transition handler raises returns False. -/
theorem transition_to_false_of_hook (m : Machine) (new_state : CameraState) (force : Bool)
    (h1 : m.transition_handlers m.current_state new_state = some false) :
    (transition_to m new_state force).2.2 = false := by
  unfold transition_to
  split
  · rfl
  · simp [h1]

/-- A transition whose mode-entry handler raises returns False. -/
theorem transition_to_false_of_shook (m : Machine) (new_state : CameraState) (force : Bool)
    (h2 : m.state_handlers new_state = some false) :
    (transition_to m new_state force).2.2 = false := by
  unfold transition_to
  split
  · rfl
  · by_cases hh : m.transition_handlers m.current_state new_state = some false
    · simp [hh]
    · simp only [if_neg hh, start_watchdog_sh, apply_ite, ite_apply, ite_self, h2]
      simp

/-- Closed form of a transition that passes the table check (or is forced)
and whose hooks do not raise: the machine commits the target, resets the
retry count unless the target is ERROR, restarts the watchdog, and emits
hook-run events around exactly one state-changed notification. -/
theorem transition_to_ok (m : Machine) (new_state : CameraState) (force : Bool)
    (hg : (!force && !(can_transition_to m new_state)) = false)
    (h1 : m.transition_handlers m.current_state new_state ≠ some false)
    (h2 : m.state_handlers new_state ≠ some false) :
    transition_to m new_state force =
      (start_watchdog
         (if new_state ≠ ERROR then { m with current_state := new_state, retry_count := 0 }
          else { m with current_state := new_state }),
       (if (m.transition_handlers m.current_state new_state).isSome then
            [Event.transition_hook_run m.current_state new_state]
          else []) ++
         [Event.state_changed new_state m.current_state] ++
         (if (m.state_handlers new_state).isSome then [Event.state_hook_run new_state] else []),
       true) := by
  unfold transition_to
  simp only [hg, Bool.false_eq_true, if_false, if_neg h1]
  simp only [start_watchdog_sh, apply_ite, ite_apply, ite_self]
  rw [if_neg h2]

/-- When the machine is in ERROR and the registered (ERROR, IDLE)
transition handler raises, a firing recovery timer consumes itself and
re-enters _handle_error instead of reaching IDLE. -/
theorem fire_recovery_fail (m : Machine)
    (hs : m.current_state = ERROR)
    (hh : m.transition_handlers ERROR IDLE = some false) :
    (fire_recovery_timer m).1 =
      (handle_error { m with recovery_timers := m.recovery_timers - 1 }
        "Transition error").1 := by
  unfold fire_recovery_timer attempt_recovery transition_to
  simp [hs, hh]

/-- Field-level consequences of a failing recovery attempt: the machine
stays in ERROR, the retry count grows, one timer is consumed and a new one
is started only while the bound is not exceeded. -/
theorem fire_recovery_fail_fields (m : Machine)
    (hs : m.current_state = ERROR)
    (hh : m.transition_handlers ERROR IDLE = some false) :
    (fire_recovery_timer m).1.current_state = ERROR ∧
      (fire_recovery_timer m).1.retry_count = m.retry_count + 1 ∧
      (fire_recovery_timer m).1.recovery_timers =
        (if m.retry_count + 1 ≤ max_retries then (m.recovery_timers - 1) + 1
         else m.recovery_timers - 1) ∧
      (fire_recovery_timer m).1.transition_handlers = m.transition_handlers := by
  rw [fire_recovery_fail m hs hh]
  refine ⟨handle_error_state _ _, ?_, ?_, ?_⟩
  · rw [handle_error_retry]
  · rw [handle_error_timers]
  · exact (handle_error_handlers _ _).1

/-- Claim C4: for every pair (from, to) not in the TransitionTable, a call
of transition_to without force returns False (rejection), leaves the
current mode unchanged, and fires no notification at all. -/
theorem c4_rejected_transition (m : Machine) (new_state : CameraState)
    (h : can_transition_to m new_state = false) :
    (transition_to m new_state false).2.2 = false ∧
      (transition_to m new_state false).1.current_state = m.current_state ∧
      (transition_to m new_state false).2.1 = [] := by
  simp [transition_to_rejected m new_state h]

/-- Witness for C4 at the fresh machine and the pair (IDLE, STOPPING),
which is not in the transition table. -/
theorem c4_rejected_transition_witness :
    can_transition_to initMachine STOPPING = false ∧
      ((transition_to initMachine STOPPING false).2.2 = false ∧
        (transition_to initMachine STOPPING false).1.current_state = initMachine.current_state ∧
        (transition_to initMachine STOPPING false).2.1 = []) :=
  ⟨by decide, c4_rejected_transition initMachine STOPPING (by decide)⟩

/-- Claim C10: a rejected non-forced transition also leaves every other
component of the machine unchanged: the retry count keeps its value, the
pending watchdog deadline is neither cancelled nor rearmed, the hook
tables are untouched, and no hook is invoked (no hook-run event occurs,
since the emitted event list is empty). -/
theorem c10_rejection_frame (m : Machine) (new_state : CameraState)
    (h : can_transition_to m new_state = false) :
    (transition_to m new_state false).1.retry_count = m.retry_count ∧
      (transition_to m new_state false).1.watchdog_timer = m.watchdog_timer ∧
      (transition_to m new_state false).1.watchdog_pending = m.watchdog_pending ∧
      (transition_to m new_state false).1.recovery_timers = m.recovery_timers ∧
      (transition_to m new_state false).1.transition_handlers = m.transition_handlers ∧
      (transition_to m new_state false).1.state_handlers = m.state_handlers ∧
      (transition_to m new_state false).2.1 = [] := by
  simp [transition_to_rejected m new_state h]

/-- Witness for C10 at a machine in PREVIEW with an armed watchdog, a
nonzero retry count and registered hooks, attempting the rejected pair
(PREVIEW, STOPPING). -/
theorem c10_rejection_frame_witness :
    can_transition_to frame_example STOPPING = false ∧
      ((transition_to frame_example STOPPING false).1.retry_count = frame_example.retry_count ∧
        (transition_to frame_example STOPPING false).1.watchdog_timer = frame_example.watchdog_timer ∧
        (transition_to frame_example STOPPING false).1.watchdog_pending = frame_example.watchdog_pending ∧
        (transition_to frame_example STOPPING false).1.recovery_timers = frame_example.recovery_timers ∧
        (transition_to frame_example STOPPING false).1.transition_handlers = frame_example.transition_handlers ∧
        (transition_to frame_example STOPPING false).1.state_handlers = frame_example.state_handlers ∧
        (transition_to frame_example STOPPING false).2.1 = []) :=
  ⟨by decide, c10_rejection_frame frame_example STOPPING (by decide)⟩

/-- Claim C9: when _handle_error forces the machine into ERROR from a
different mode, the state-changed notification carries ERROR as both the
new and the old state, because line 202 overwrites the mode before line
203 reads the old-state argument from it; the pre-error mode is never
reported. -/
theorem c9_error_notification (m : Machine) (s : String)
    (h : m.current_state ≠ ERROR) :
    (handle_error m s).2 = [Event.error_occurred s, Event.state_changed ERROR ERROR] := by
  rw [handle_error_events]
  simp [h]

/-- Witness for C9 at a machine in PREVIEW: the notification reports ERROR
as the old state even though the pre-error mode was PREVIEW. -/
theorem c9_error_notification_witness :
    ({ initMachine with current_state := PREVIEW } : Machine).current_state ≠ ERROR ∧
      (handle_error { initMachine with current_state := PREVIEW } "boom").2 =
        [Event.error_occurred "boom", Event.state_changed ERROR ERROR] :=
  ⟨by decide, c9_error_notification { initMachine with current_state := PREVIEW } "boom" (by decide)⟩

/-- Counterexample to claim C3 as stated: with a registered PREVIEW
mode-entry hook that raises, the forced transition (IDLE, PREVIEW) returns
False, so force=true transitions do not always succeed in every machine
state. -/
theorem c3_force_counterexample :
    (transition_to (register_state_handler initMachine PREVIEW false) PREVIEW true).2.2 = false := by
  decide

/-- Claim C3 amended: a forced transition ignores the TransitionTable and
succeeds from every mode to every target, provided the registered
transition hook and mode-entry hook for this transition (if any) do not
raise. -/
theorem c3_force_amended (m : Machine) (new_state : CameraState)
    (h1 : m.transition_handlers m.current_state new_state ≠ some false)
    (h2 : m.state_handlers new_state ≠ some false) :
    (transition_to m new_state true).2.2 = true := by
  unfold transition_to start_watchdog stop_watchdog
  simp [h1, h2, apply_ite]
  split <;> simp_all

/-- Witness for the amended C3: a forced transition from IDLE straight to
STOPPING, a pair outside the TransitionTable, succeeds on a machine
without hooks. -/
theorem c3_force_amended_witness :
    initMachine.transition_handlers initMachine.current_state STOPPING ≠ some false ∧
      initMachine.state_handlers STOPPING ≠ some false ∧
      (transition_to initMachine STOPPING true).2.2 = true :=
  ⟨by decide, by decide, c3_force_amended initMachine STOPPING (by decide) (by decide)⟩

/-- Claim C5: for every pair (from, to) in the TransitionTable, a
successful non-forced transition commits the target as the current mode,
fires exactly one state-changed notification carrying (to, from), resets
the retry counter to zero unless the target is ERROR, and rearms the
watchdog for the new mode (a fresh deadline for PREVIEW or RECORDING, no
pending deadline otherwise). -/
theorem c5_successful_transition (m : Machine) (new_state : CameraState)
    (hcan : can_transition_to m new_state = true)
    (hsucc : (transition_to m new_state false).2.2 = true) :
    (transition_to m new_state false).1.current_state = new_state ∧
      state_changed_events (transition_to m new_state false).2.1 =
        [Event.state_changed new_state m.current_state] ∧
      (new_state ≠ ERROR → (transition_to m new_state false).1.retry_count = 0) ∧
      (transition_to m new_state false).1.watchdog_pending =
        (if new_state ∈ [PREVIEW, RECORDING] then some new_state else none) ∧
      (transition_to m new_state false).1.watchdog_timer =
        (if new_state ∈ [PREVIEW, RECORDING] then true else false) := by
  by_cases hhook : m.transition_handlers m.current_state new_state = some false
  · rw [transition_to_false_of_hook m new_state false hhook] at hsucc
    exact absurd hsucc (by simp)
  · by_cases hshook : m.state_handlers new_state = some false
    · rw [transition_to_false_of_shook m new_state false hshook] at hsucc
      exact absurd hsucc (by simp)
    · rw [transition_to_ok m new_state false (by simp [hcan]) hhook hshook]
      refine ⟨?_, ?_, ?_, ?_, ?_⟩
      · rw [start_watchdog_cs]
        split <;> rfl
      · by_cases h3 : (m.transition_handlers m.current_state new_state).isSome <;>
          by_cases h4 : (m.state_handlers new_state).isSome <;>
            simp [h3, h4, state_changed_events, List.filter_cons, List.filter_append]
      · intro hE
        rw [start_watchdog_rc]
        simp [hE]
      · rw [start_watchdog_wp]
        by_cases hE : new_state = ERROR <;> simp [hE]
      · rw [start_watchdog_wt]
        by_cases hE : new_state = ERROR <;> simp [hE]

/-- Witness for C5: the in-table transition from PREVIEW to RECORDING on a
machine with a nonzero retry count. -/
theorem c5_successful_transition_witness :
    can_transition_to { frame_example with retry_count := 2 } RECORDING = true ∧
      (transition_to { frame_example with retry_count := 2 } RECORDING false).2.2 = true ∧
      (transition_to { frame_example with retry_count := 2 } RECORDING false).1.current_state = RECORDING ∧
      state_changed_events (transition_to { frame_example with retry_count := 2 } RECORDING false).2.1 =
        [Event.state_changed RECORDING PREVIEW] ∧
      (transition_to { frame_example with retry_count := 2 } RECORDING false).1.retry_count = 0 ∧
      (transition_to { frame_example with retry_count := 2 } RECORDING false).1.watchdog_pending =
        some RECORDING := by
  have h := c5_successful_transition { frame_example with retry_count := 2 } RECORDING
    (by decide) (by decide)
  exact ⟨by decide, by decide, h.1, h.2.1, h.2.2.1 (by decide), by decide⟩

/-- Claim C1: with a retry count starting at zero and a recovery path that
never succeeds (no intervening successful non-error transition), an error
followed by three consecutive failing error recoveries drives the retry
count to 1, 2, 3 and schedules a recovery timer each time; the 4th error
(raised by the third failed recovery) pushes the count to 4, exceeding the
bound of 3, schedules no further recovery timer, and leaves the machine in
ERROR with no pending recovery, where any further error still schedules
nothing; only a successful non-error transition would reset the counter,
and none occurred. -/
theorem c1_retry_exhaustion (m : Machine) (s1 : String)
    (hh : m.transition_handlers ERROR IDLE = some false)
    (hr : m.retry_count = 0)
    (ht : m.recovery_timers = 0) :
    ((handle_error m s1).1.retry_count = 1 ∧
       (handle_error m s1).1.recovery_timers = 1) ∧
      ((fire_recovery_timer (handle_error m s1).1).1.retry_count = 2 ∧
        (fire_recovery_timer (handle_error m s1).1).1.recovery_timers = 1) ∧
      ((fire_recovery_timer (fire_recovery_timer (handle_error m s1).1).1).1.retry_count = 3 ∧
        (fire_recovery_timer (fire_recovery_timer (handle_error m s1).1).1).1.recovery_timers = 1) ∧
      ((fire_recovery_timer (fire_recovery_timer
          (fire_recovery_timer (handle_error m s1).1).1).1).1.retry_count = 4 ∧
        (fire_recovery_timer (fire_recovery_timer
          (fire_recovery_timer (handle_error m s1).1).1).1).1.recovery_timers = 0 ∧
        (fire_recovery_timer (fire_recovery_timer
          (fire_recovery_timer (handle_error m s1).1).1).1).1.current_state = ERROR) ∧
      (∀ s : String,
        (handle_error (fire_recovery_timer (fire_recovery_timer
          (fire_recovery_timer (handle_error m s1).1).1).1).1 s).1.recovery_timers = 0 ∧
        (handle_error (fire_recovery_timer (fire_recovery_timer
          (fire_recovery_timer (handle_error m s1).1).1).1).1 s).1.current_state = ERROR) := by
  have h1s := handle_error_state m s1
  have h1r : (handle_error m s1).1.retry_count = 1 := by rw [handle_error_retry, hr]
  have h1t : (handle_error m s1).1.recovery_timers = 1 := by
    rw [handle_error_timers, hr, ht]
    simp [max_retries]
  have h1h : (handle_error m s1).1.transition_handlers ERROR IDLE = some false := by
    rw [(handle_error_handlers m s1).1]
    exact hh
  have f2 := fire_recovery_fail_fields (handle_error m s1).1 h1s h1h
  have h2r : (fire_recovery_timer (handle_error m s1).1).1.retry_count = 2 := by
    rw [f2.2.1, h1r]
  have h2t : (fire_recovery_timer (handle_error m s1).1).1.recovery_timers = 1 := by
    rw [f2.2.2.1, h1r, h1t]
    simp [max_retries]
  have h2h : (fire_recovery_timer (handle_error m s1).1).1.transition_handlers ERROR IDLE
      = some false := by
    rw [f2.2.2.2]
    exact h1h
  have f3 := fire_recovery_fail_fields (fire_recovery_timer (handle_error m s1).1).1 f2.1 h2h
  have h3r : (fire_recovery_timer (fire_recovery_timer
      (handle_error m s1).1).1).1.retry_count = 3 := by
    rw [f3.2.1, h2r]
  have h3t : (fire_recovery_timer (fire_recovery_timer
      (handle_error m s1).1).1).1.recovery_timers = 1 := by
    rw [f3.2.2.1, h2r, h2t]
    simp [max_retries]
  have h3h : (fire_recovery_timer (fire_recovery_timer
      (handle_error m s1).1).1).1.transition_handlers ERROR IDLE = some false := by
    rw [f3.2.2.2]
    exact h2h
  have f4 := fire_recovery_fail_fields (fire_recovery_timer (fire_recovery_timer
    (handle_error m s1).1).1).1 f3.1 h3h
  have h4r : (fire_recovery_timer (fire_recovery_timer (fire_recovery_timer
      (handle_error m s1).1).1).1).1.retry_count = 4 := by
    rw [f4.2.1, h3r]
  have h4t : (fire_recovery_timer (fire_recovery_timer (fire_recovery_timer
      (handle_error m s1).1).1).1).1.recovery_timers = 0 := by
    rw [f4.2.2.1, h3r, h3t]
    simp [max_retries]
  refine ⟨⟨h1r, h1t⟩, ⟨h2r, h2t⟩, ⟨h3r, h3t⟩, ⟨h4r, h4t, f4.1⟩, ?_⟩
  intro s
  refine ⟨?_, handle_error_state _ s⟩
  rw [handle_error_timers, h4r, h4t]
  simp [max_retries]

/-- Witness for C1: the failing-recovery machine reaches retry count 4 in
ERROR with no pending recovery timer, and a further error schedules no
recovery either. -/
theorem c1_retry_exhaustion_witness :
    ((fire_recovery_timer (fire_recovery_timer
        (fire_recovery_timer (handle_error failing_recovery_example "boom").1).1).1).1.retry_count = 4 ∧
      (fire_recovery_timer (fire_recovery_timer
        (fire_recovery_timer (handle_error failing_recovery_example "boom").1).1).1).1.recovery_timers = 0 ∧
      (fire_recovery_timer (fire_recovery_timer
        (fire_recovery_timer (handle_error failing_recovery_example "boom").1).1).1).1.current_state = ERROR) ∧
      (handle_error (fire_recovery_timer (fire_recovery_timer
        (fire_recovery_timer (handle_error failing_recovery_example "boom").1).1).1).1
          "next").1.recovery_timers = 0 := by
  have h := c1_retry_exhaustion failing_recovery_example "boom" (by decide) (by decide) (by decide)
  exact ⟨h.2.2.2.1, (h.2.2.2.2 "next").1⟩

/-- Counterexample to claim C8 as stated: when the PREVIEW mode-entry hook
raises during the transition (IDLE, PREVIEW), _start_watchdog has already
armed the watchdog for PREVIEW and _handle_error then forces ERROR without
cancelling it, so the machine sits in ERROR with the watchdog still armed
and pending. -/
theorem c8_watchdog_counterexample :
    (transition_to (register_state_handler initMachine PREVIEW false) PREVIEW false).1.current_state
        = ERROR ∧
      (transition_to (register_state_handler initMachine PREVIEW false) PREVIEW false).1.watchdog_pending
        = some PREVIEW ∧
      (transition_to (register_state_handler initMachine PREVIEW false) PREVIEW false).1.watchdog_timer
        = true := by
  decide

/-- Claim C8 amended: arming the watchdog happens only when the committed
mode is PREVIEW or RECORDING (never in IDLE, STOPPING or ERROR), although
an already-armed watchdog can survive a hook-failure fall into ERROR; and
when the armed deadline elapses while the machine is still in the mode
that armed it, exactly one error notification is emitted, its message
contains the word stalled, and the machine is forced into ERROR. -/
theorem c8_watchdog_amended (m : Machine) (s : CameraState)
    (hp : m.watchdog_pending = some s)
    (hcur : m.current_state = s)
    (hPR : s = PREVIEW ∨ s = RECORDING) :
    (∀ x : Machine, (start_watchdog x).watchdog_pending =
      (if x.current_state ∈ [PREVIEW, RECORDING] then some x.current_state else none)) ∧
      (fire_watchdog m).1.current_state = ERROR ∧
      error_messages (fire_watchdog m).2 =
        [if s = PREVIEW then "Preview stalled - watchdog timeout"
         else "Recording stalled - watchdog timeout"] ∧
      mentions_stalled
        (if s = PREVIEW then "Preview stalled - watchdog timeout"
         else "Recording stalled - watchdog timeout") = true := by
  refine ⟨start_watchdog_wp, ?_, ?_, ?_⟩
  · unfold fire_watchdog watchdog_timeout_handler
    rcases hPR with h | h <;> subst h <;> simp [hcur] <;> exact handle_error_state _ _
  · unfold fire_watchdog watchdog_timeout_handler
    rcases hPR with h | h <;> subst h <;> simp [hcur] <;>
      simp [error_messages_handle_error]
  · rcases hPR with h | h <;> subst h <;> decide

/-- Witness for the amended C8 at a machine sitting in PREVIEW with the
watchdog armed for PREVIEW. -/
theorem c8_watchdog_amended_witness :
    (fire_watchdog preview_armed_example).1.current_state = ERROR ∧
      error_messages (fire_watchdog preview_armed_example).2 =
        ["Preview stalled - watchdog timeout"] ∧
      mentions_stalled "Preview stalled - watchdog timeout" = true := by
  have h := c8_watchdog_amended preview_armed_example PREVIEW rfl rfl (Or.inl rfl)
  exact ⟨h.2.1, by simpa using h.2.2.1, by simpa using h.2.2.2⟩

/-- progress_messages on the empty event list. -/
theorem progress_messages_nil : progress_messages [] = [] := rfl

/-- progress_messages of a cons: keeps the message of a stop_progress
event and skips every other event. -/
theorem progress_messages_cons (e : Event) (l : List Event) :
    progress_messages (e :: l) =
      (match e with | Event.stop_progress s => [s] | _ => []) ++ progress_messages l := by
  cases e <;> rfl

/-- progress_messages distributes over list append. -/
theorem progress_messages_append (l1 l2 : List Event) :
    progress_messages (l1 ++ l2) = progress_messages l1 ++ progress_messages l2 := by
  unfold progress_messages
  exact List.filterMap_append l1 l2 _

/-- completed_flags on the empty event list. -/
theorem completed_flags_nil : completed_flags [] = [] := rfl

/-- completed_flags of a cons: keeps the flag of a stop_completed event
and skips every other event. -/
theorem completed_flags_cons (e : Event) (l : List Event) :
    completed_flags (e :: l) =
      (match e with | Event.stop_completed b => [b] | _ => []) ++ completed_flags l := by
  cases e <;> rfl

/-- completed_flags distributes over list append. -/
theorem completed_flags_append (l1 l2 : List Event) :
    completed_flags (l1 ++ l2) = completed_flags l1 ++ completed_flags l2 := by
  unfold completed_flags
  exact List.filterMap_append l1 l2 _

/-- The method _handle_error emits no sequencer progress or completion events. -/
theorem no_stop_events_handle_error (m : Machine) (s : String) :
    progress_messages (handle_error m s).2 = [] ∧
      completed_flags (handle_error m s).2 = [] := by
  rw [handle_error_events]
  by_cases h : m.current_state = ERROR <;>
    simp [h, progress_messages_cons, progress_messages_nil,
      completed_flags_cons, completed_flags_nil]

/-- Counterexample to claim C2 as stated: in a run where drain raises, the
single try/except around the whole worker (machine.py lines 320-359)
aborts the remaining steps, so finalize_recording is never called,
stop_recording_safe is never called, the final transition to PREVIEW is
never attempted (no returning-to-preview progress message and the state
machine is untouched), and the run completes with stop_completed False. -/
theorem c2_drain_abort_counterexample :
    Event.finalize_called ∉
        (safe_stop_recording stopping_mgr_example (some ⟨none⟩)
          (some ⟨some "encoder failure", none⟩)).2.1 ∧
      Event.stop_safe_called ∉
        (safe_stop_recording stopping_mgr_example (some ⟨none⟩)
          (some ⟨some "encoder failure", none⟩)).2.1 ∧
      "Returning to preview..." ∉
        progress_messages (safe_stop_recording stopping_mgr_example (some ⟨none⟩)
          (some ⟨some "encoder failure", none⟩)).2.1 ∧
      (safe_stop_recording stopping_mgr_example (some ⟨none⟩)
          (some ⟨some "encoder failure", none⟩)).1.state_machine.current_state = STOPPING ∧
      completed_flags (safe_stop_recording stopping_mgr_example (some ⟨none⟩)
          (some ⟨some "encoder failure", none⟩)).2.1 = [false] := by
  decide

/-- Claim C2 amended: a run in which drain raises does not proceed: the
exception is caught by the run-level handler, which emits a failure
progress message and stop_completed False, skips finalize, the capture
stop and the transition to PREVIEW, leaves the state machine untouched,
and still clears the in-progress flag. -/
theorem c2_drain_abort_amended (mgr : SafeStopManager)
    (camera_manager : Option CameraManager) (e : EncoderManager) (exc : String)
    (hi : mgr.stop_in_progress = false)
    (hd : e.drain_exc = some exc) :
    safe_stop_recording mgr camera_manager (some e) =
      ({ state_machine := mgr.state_machine, stop_in_progress := false },
       [Event.stop_progress "Stopping recording...",
        Event.stop_progress "Draining encoder...",
        Event.drain_called,
        Event.stop_progress ("Stop failed: " ++ exc),
        Event.stop_completed false],
       true) := by
  unfold safe_stop_recording safe_stop_worker safe_stop_body
  simp [hi, hd]

/-- Witness for the amended C2: a concrete aborted run where drain raises
with message boom. -/
theorem c2_drain_abort_amended_witness :
    safe_stop_recording stopping_mgr_example (some ⟨none⟩) (some ⟨some "boom", none⟩) =
      ({ state_machine := stopping_mgr_example.state_machine, stop_in_progress := false },
       [Event.stop_progress "Stopping recording...",
        Event.stop_progress "Draining encoder...",
        Event.drain_called,
        Event.stop_progress ("Stop failed: " ++ "boom"),
        Event.stop_completed false],
       true) :=
  c2_drain_abort_amended stopping_mgr_example (some ⟨none⟩) ⟨some "boom", none⟩ "boom"
    (by decide) (by decide)

/-- Claim C6: in a run where both collaborators succeed and the final
transition to PREVIEW succeeds, progress messages are emitted in exactly
the order stopping, draining, finalizing-file, finalizing-camera,
returning-to-preview, ready, followed by a stop_completed event as the
last event of the run, whose success flag equals the boolean result of
the final transition. -/
theorem c6_full_run_order (mgr : SafeStopManager) (e : EncoderManager) (c : CameraManager)
    (hi : mgr.stop_in_progress = false)
    (hd : e.drain_exc = none) (hf : e.finalize_exc = none) (hs : c.stop_exc = none)
    (ht : (transition_to mgr.state_machine PREVIEW false).2.2 = true) :
    progress_messages (safe_stop_recording mgr (some c) (some e)).2.1 =
      ["Stopping recording...", "Draining encoder...", "Finalizing file...",
       "Finalizing camera...", "Returning to preview...", "Ready"] ∧
      completed_flags (safe_stop_recording mgr (some c) (some e)).2.1 = [true] ∧
      (safe_stop_recording mgr (some c) (some e)).2.1.getLast? =
        some (Event.stop_completed (transition_to mgr.state_machine PREVIEW false).2.2) := by
  have hcan : can_transition_to mgr.state_machine PREVIEW = true := by
    by_contra hc
    rw [transition_to_rejected mgr.state_machine PREVIEW (by simpa using hc)] at ht
    simp at ht
  have hh : mgr.state_machine.transition_handlers mgr.state_machine.current_state PREVIEW
      ≠ some false := by
    intro hcon
    rw [transition_to_false_of_hook mgr.state_machine PREVIEW false hcon] at ht
    simp at ht
  have hsh : mgr.state_machine.state_handlers PREVIEW ≠ some false := by
    intro hcon
    rw [transition_to_false_of_shook mgr.state_machine PREVIEW false hcon] at ht
    simp at ht
  have htok := transition_to_ok mgr.state_machine PREVIEW false (by simp [hcan]) hh hsh
  unfold safe_stop_recording safe_stop_worker safe_stop_body
  by_cases hio : (mgr.state_machine.transition_handlers mgr.state_machine.current_state
      PREVIEW).isSome <;>
    by_cases hio2 : (mgr.state_machine.state_handlers PREVIEW).isSome <;>
      simp [hi, hd, hf, hs, htok, hio, hio2, progress_messages_cons, progress_messages_nil,
        progress_messages_append, completed_flags_cons, completed_flags_nil,
        completed_flags_append, List.getLast?_append_cons]

/-- Witness for C6: a full successful run from STOPPING with collaborators
that do not raise. -/
theorem c6_full_run_order_witness :
    progress_messages
        (safe_stop_recording stopping_mgr_example (some ⟨none⟩) (some ⟨none, none⟩)).2.1 =
      ["Stopping recording...", "Draining encoder...", "Finalizing file...",
       "Finalizing camera...", "Returning to preview...", "Ready"] ∧
      completed_flags
        (safe_stop_recording stopping_mgr_example (some ⟨none⟩) (some ⟨none, none⟩)).2.1 =
        [true] ∧
      (safe_stop_recording stopping_mgr_example (some ⟨none⟩) (some ⟨none, none⟩)).2.1.getLast? =
        some (Event.stop_completed true) := by
  have h := c6_full_run_order stopping_mgr_example ⟨none, none⟩ ⟨none⟩
    (by decide) rfl rfl rfl (by decide)
  refine ⟨h.1, h.2.1, ?_⟩
  have h3 := h.2.2
  have he : (transition_to stopping_mgr_example.state_machine PREVIEW false).2.2 = true := by
    decide
  rw [he] at h3
  exact h3

/-- The worker clears the in-progress flag on both the normal and the
exception exit path (the finally branch, machine.py lines 361-362). -/
theorem safe_stop_worker_flag (mgr : SafeStopManager) (camera_manager : Option CameraManager)
    (encoder_manager : Option EncoderManager) :
    (safe_stop_worker mgr camera_manager encoder_manager).1.stop_in_progress = false := by
  unfold safe_stop_worker
  rcases hb : safe_stop_body mgr.state_machine camera_manager encoder_manager with ⟨evs, r⟩
  cases r with
  | error exc => rfl
  | ok p => cases p with | mk sm2 succ => rfl

/-- last_is_completed ignores a prepended prefix when the tail of the list
is nonempty. -/
theorem last_is_completed_append (l1 l2 : List Event) (h : l2 ≠ []) :
    last_is_completed (l1 ++ l2) = last_is_completed l2 := by
  unfold last_is_completed
  rw [List.getLast?_append_of_ne_nil l1 h]

/-- last_is_completed ignores a leading event when the rest is nonempty. -/
theorem last_is_completed_cons (e : Event) (l : List Event) (h : l ≠ []) :
    last_is_completed (e :: l) = last_is_completed l :=
  last_is_completed_append [e] l h

/-- A singleton completion event satisfies last_is_completed. -/
theorem last_is_completed_single (b : Bool) :
    last_is_completed [Event.stop_completed b] = true := rfl

/-- Every worker run, whatever the collaborators do, ends its event list
with a stop_completed notification. -/
theorem safe_stop_worker_completed (mgr : SafeStopManager)
    (camera_manager : Option CameraManager) (encoder_manager : Option EncoderManager) :
    last_is_completed (safe_stop_worker mgr camera_manager encoder_manager).2 = true := by
  rcases encoder_manager with _ | ⟨de, fe⟩
  · rcases camera_manager with _ | ⟨se⟩
    · unfold safe_stop_worker safe_stop_body
      by_cases hsucc : (transition_to mgr.state_machine PREVIEW false).2.2 <;>
        simp [hsucc, last_is_completed_cons, last_is_completed_append, last_is_completed_single]
    · rcases se with _ | sexc
      · unfold safe_stop_worker safe_stop_body
        by_cases hsucc : (transition_to mgr.state_machine PREVIEW false).2.2 <;>
          simp [hsucc, last_is_completed_cons, last_is_completed_append, last_is_completed_single]
      · unfold safe_stop_worker safe_stop_body
        simp [last_is_completed_cons, last_is_completed_append, last_is_completed_single]
  · rcases de with _ | dexc
    · rcases fe with _ | fexc
      · rcases camera_manager with _ | ⟨se⟩
        · unfold safe_stop_worker safe_stop_body
          by_cases hsucc : (transition_to mgr.state_machine PREVIEW false).2.2 <;>
            simp [hsucc, last_is_completed_cons, last_is_completed_append, last_is_completed_single]
        · rcases se with _ | sexc
          · unfold safe_stop_worker safe_stop_body
            by_cases hsucc : (transition_to mgr.state_machine PREVIEW false).2.2 <;>
              simp [hsucc, last_is_completed_cons, last_is_completed_append,
                last_is_completed_single]
          · unfold safe_stop_worker safe_stop_body
            simp [last_is_completed_cons, last_is_completed_append, last_is_completed_single]
      · unfold safe_stop_worker safe_stop_body
        simp [last_is_completed_cons, last_is_completed_append, last_is_completed_single]
    · unfold safe_stop_worker safe_stop_body
      simp [last_is_completed_cons, last_is_completed_append, last_is_completed_single]

/-- Claim C7: a stop requested while one is already in progress is
rejected as a no-op (nothing emitted, no worker run started, the manager
unchanged); and every worker run, on every exit path, clears the
in-progress flag and ends with a completion notification, after which
is_stopping is false again. -/
theorem c7_busy_and_cleanup (mgr : SafeStopManager)
    (camera_manager : Option CameraManager) (encoder_manager : Option EncoderManager) :
    (is_stopping mgr = true →
      safe_stop_recording mgr camera_manager encoder_manager = (mgr, [], false)) ∧
      (safe_stop_worker { mgr with stop_in_progress := true }
        camera_manager encoder_manager).1.stop_in_progress = false ∧
      last_is_completed (safe_stop_worker { mgr with stop_in_progress := true }
        camera_manager encoder_manager).2 = true := by
  refine ⟨?_, safe_stop_worker_flag _ _ _, safe_stop_worker_completed _ _ _⟩
  intro h
  unfold safe_stop_recording
  simp [is_stopping] at h
  simp [h]

/-- Witness for C7 at a manager whose run is already in progress and a
manager running with no collaborators. -/
theorem c7_busy_and_cleanup_witness :
    safe_stop_recording { stopping_mgr_example with stop_in_progress := true } none none =
        ({ stopping_mgr_example with stop_in_progress := true }, [], false) ∧
      (safe_stop_worker { stopping_mgr_example with stop_in_progress := true }
        none none).1.stop_in_progress = false ∧
      last_is_completed (safe_stop_worker { stopping_mgr_example with stop_in_progress := true }
        none none).2 = true := by
  have h := c7_busy_and_cleanup { stopping_mgr_example with stop_in_progress := true } none none
  exact ⟨h.1 (by decide), h.2.1, h.2.2⟩

end CineLuck
